import Mathlib

/-!
Shallow embedding of the Virgo DTX server's parsing core (`src/server/main.py`).

Python strings are modelled as Lean `String` (a list of characters, matching
Python's code-point indexing).  Python's `None`-able values are `Option`s.
Python dicts with a fixed key set are structures whose fields are `Option`s
(`none` means the key is absent); the `difficulties` dict, whose keys are
dynamic, is an insertion-ordered association list, matching Python dict
iteration order.  The filesystem is abstracted to the record types at the
bottom: reading a file yields its stored content string (the encoding-fallback
chains of the source are I/O plumbing that always ends in some decoded string).
-/

/-- Python `str.isspace` for the characters Python's `strip()` removes. -/
def isPySpace (c : Char) : Bool :=
  c = ' ' || c = '\t' || c = '\n' || c = '\r' || c = '\x0b' || c = '\x0c'

/-- Python `str.strip()`: drop leading and trailing whitespace. -/
def pyStrip (s : String) : String :=
  String.mk (((s.data.dropWhile isPySpace).reverse.dropWhile isPySpace).reverse)

/-- Python `s.startswith(pre)`. -/
def pyStartsWith (s pre : String) : Bool :=
  pre.data.isPrefixOf s.data

/-- Split a character list at each occurrence of `sep`, scanning left to right
without overlap.  The fuel argument (instantiated with the list length) makes
the recursion structural; `acc` holds the current piece reversed. -/
def splitOnAux (sep : List Char) : Nat → List Char → List Char → List (List Char)
  | _, [], acc => [acc.reverse]
  | 0, rest, acc => [acc.reverse ++ rest]
  | Nat.succ fuel, c :: cs, acc =>
    if sep.isPrefixOf (c :: cs) then
      acc.reverse :: splitOnAux sep fuel (List.drop sep.length (c :: cs)) []
    else splitOnAux sep fuel cs (c :: acc)

/-- Python `s.split(sep)` for a non-empty separator (Python raises on an empty
one; here it degenerates to the whole string). -/
def pySplit (s sep : String) : List String :=
  if sep.data.isEmpty then [s]
  else (splitOnAux sep.data s.data.length s.data []).map String.mk

/-- Python `sub in s` for a non-empty `sub`, via the split decomposition. -/
def pyContains (s sub : String) : Bool :=
  (pySplit s sub).length != 1

/-- Python `s.replace(a, b)` for single-character arguments. -/
def pyReplaceChar (s : String) (a b : Char) : String :=
  String.mk (s.data.map (fun c => if c = a then b else c))

/-- Python `str.upper()` (ASCII case mapping suffices for this repository). -/
def pyUpper (s : String) : String :=
  String.mk (s.data.map Char.toUpper)

/-- Python `str.lower()`. -/
def pyLower (s : String) : String :=
  String.mk (s.data.map Char.toLower)

/-- Python `str.title()`: an alphabetic character is uppercased when the
previous character is not alphabetic, and lowercased otherwise. -/
def pyTitleAux : Bool → List Char → List Char
  | _, [] => []
  | prev, c :: cs =>
    if c.isAlpha then (if prev then c.toLower else c.toUpper) :: pyTitleAux true cs
    else c :: pyTitleAux false cs

/-- Python `str.title()` on a string. -/
def pyTitle (s : String) : String :=
  String.mk (pyTitleAux false s.data)

/-- Value of a digit run, most significant first. -/
def digitsVal (l : List Char) : Nat :=
  l.foldl (fun n c => 10 * n + (c.toNat - 48)) 0

/-- Python `int(s)`: strip whitespace, optional sign, a non-empty digit run.
Underscore digit grouping is not modelled. Returns `none` where Python raises
`ValueError`. -/
def pyInt? (s : String) : Option Int :=
  let t := (pyStrip s).data
  let p : Int × List Char :=
    match t with
    | '+' :: r => (1, r)
    | '-' :: r => (-1, r)
    | r => (1, r)
  if p.2.isEmpty || !(p.2.all Char.isDigit) then none
  else some (p.1 * (digitsVal p.2 : Int))

/-- Python `float(s)` on ordinary decimal literals: strip whitespace, optional
sign, digits with an optional decimal point (at least one digit overall) and an
optional exponent.  The value is kept exactly as a rational; `inf`/`nan` and
underscore grouping are not modelled.  Returns `none` where Python raises
`ValueError`. -/
def pyFloat? (s : String) : Option Rat :=
  let t := (pyStrip s).data
  let p : Rat × List Char :=
    match t with
    | '+' :: r => (1, r)
    | '-' :: r => (-1, r)
    | r => (1, r)
  let ip := p.2.takeWhile Char.isDigit
  let r1 := p.2.dropWhile Char.isDigit
  let q : List Char × List Char :=
    match r1 with
    | '.' :: r => (r.takeWhile Char.isDigit, r.dropWhile Char.isDigit)
    | _ => ([], r1)
  if ip.isEmpty && q.1.isEmpty then none
  else
    let mant : Rat := p.1 * ((digitsVal ip : Rat) + (digitsVal q.1 : Rat) / ((10 : Rat) ^ q.1.length))
    match q.2 with
    | [] => some mant
    | e :: r3 =>
      if e = 'e' || e = 'E' then
        let ep : Bool × List Char :=
          match r3 with
          | '+' :: r => (false, r)
          | '-' :: r => (true, r)
          | r => (false, r)
        if ep.2.isEmpty || !(ep.2.all Char.isDigit) then none
        else some (if ep.1 then mant / (10 : Rat) ^ digitsVal ep.2 else mant * (10 : Rat) ^ digitsVal ep.2)
      else none

/-- Embedding of `parse_dtx_line` (main.py:21-38): strip the line, require the
prefix `#KEY`, strip the remainder; a leading colon is dropped together with
the whitespace around it. `none` is Python's `None`. -/
def parse_dtx_line (line key : String) : Option String :=
  let l := pyStrip line
  let pre := "#" ++ key
  if pyStartsWith l pre then
    let valuePart := pyStrip (String.mk (l.data.drop pre.data.length))
    match valuePart.data with
    | ':' :: rest => some (pyStrip (String.mk rest))
    | _ => some valuePart
  else none

/-- A difficulty-slot dict in `parse_set_def`: possible keys `label`, `file`. -/
structure Slot where
  label : Option String := none
  file : Option String := none
deriving DecidableEq

/-- Result dict of `parse_set_def`: title plus the insertion-ordered
`difficulties` dict. -/
structure SetDefInfo where
  title : Option String := none
  difficulties : List (String × Slot) := []
deriving DecidableEq

/-- Python dict assignment `m[k] = v` on an insertion-ordered association
list: an existing key keeps its position, a new key is appended. -/
def updAssoc (m : List (String × Slot)) (k : String) (v : Slot) : List (String × Slot) :=
  if m.any (fun p => p.1 == k) then m.map (fun p => if p.1 == k then (k, v) else p)
  else m ++ [(k, v)]

/-- One loop iteration of `parse_set_def` (main.py:64-83).  Note that the
LABEL branch assigns a fresh one-key dict to the slot (replacing any `file`
already stored), while the FILE branch merges into an existing entry. -/
def setDefStep (si : SetDefInfo) (rawLine : String) : SetDefInfo :=
  let line := pyStrip rawLine
  match parse_dtx_line line "TITLE" with
  | some t => { si with title := some t }
  | none =>
    if pyStartsWith line "#L" && pyContains line "LABEL" then
      let levelNum := String.mk ((line.data.drop 2).take 1)
      let label := pyStrip (((pySplit line "LABEL").drop 1).headD "")
      { si with difficulties := updAssoc si.difficulties levelNum { label := some label, file := none } }
    else if pyStartsWith line "#L" && pyContains line "FILE" then
      let levelNum := String.mk ((line.data.drop 2).take 1)
      let filename := pyStrip (((pySplit line "FILE").drop 1).headD "")
      match (si.difficulties.find? (fun p => p.1 == levelNum)).map (fun p => p.2) with
      | some slot => { si with difficulties := updAssoc si.difficulties levelNum { slot with file := some filename } }
      | none => { si with difficulties := updAssoc si.difficulties levelNum { label := none, file := some filename } }
    else si

/-- Embedding of `parse_set_def` (main.py:40-85) on the decoded file content:
fold the per-line step over the `'\n'`-split lines. -/
def parse_set_def (content : String) : SetDefInfo :=
  (pySplit content "\n").foldl setDefStep {}

/-- The metadata dict built by `parse_dtx_metadata` (main.py:87-131).  An
outer `none` models an absent dict key; numeric fields carry an inner `Option`
because the source stores an explicit `None` when conversion fails. -/
structure ChartMetadata where
  title : Option String := none
  artist : Option String := none
  bpm : Option (Option Rat) := none
  level : Option (Option Int) := none
deriving DecidableEq

/-- One loop iteration of `parse_dtx_metadata` (main.py:98-129): try TITLE,
ARTIST, BPM, DLEVEL in that order, the first match setting its field and
continuing with the next line. -/
def dtxStep (md : ChartMetadata) (rawLine : String) : ChartMetadata :=
  let line := pyStrip rawLine
  match parse_dtx_line line "TITLE" with
  | some t => { md with title := some t }
  | none =>
    match parse_dtx_line line "ARTIST" with
    | some a => { md with artist := some a }
    | none =>
      match parse_dtx_line line "BPM" with
      | some b => { md with bpm := some (pyFloat? b) }
      | none =>
        match parse_dtx_line line "DLEVEL" with
        | some dl => { md with level := some (pyInt? dl) }
        | none => md

/-- The line loop of `parse_dtx_metadata` over an already split line list. -/
def dtxLines (ls : List String) : ChartMetadata :=
  ls.foldl dtxStep {}

/-- Embedding of `parse_dtx_metadata` (main.py:87-131) on the decoded file
content (the Shift-JIS/UTF-8 fallback read is I/O plumbing outside the model). -/
def parse_dtx_metadata (content : String) : ChartMetadata :=
  dtxLines (pySplit content "\n")

/-- A chart file on disk: its decoded text content and its byte size
(`stat().st_size`). -/
structure DtxFile where
  content : String
  size : Nat
deriving DecidableEq

/-- A song folder as `parse_song_folder` sees it: the folder name, the
`SET.def` content when that file exists, and the folder's chart files. -/
structure SongDir where
  name : String
  setDef : Option String
  files : List (String × DtxFile)
deriving DecidableEq

/-- Python `dict.get(fn)` over the folder's files, doubling as the
`dtx_path.exists()` check. -/
def lookupFile (d : SongDir) (fn : String) : Option DtxFile :=
  (d.files.find? (fun p => p.1 == fn)).map (fun p => p.2)

/-- An element of `song_data['charts']` (main.py:175-181). `level` is an
`Option` because the source can store Python `None` there. -/
structure ChartEntry where
  difficulty : String
  difficulty_label : String
  level : Option Int
  filename : String
  size : Nat
deriving DecidableEq

/-- The `song_data` dict of `parse_song_folder` (main.py:150-156). -/
structure SongData where
  song_id : String
  title : String
  artist : Option String
  bpm : Option Rat
  charts : List ChartEntry
deriving DecidableEq

/-- The fixed `difficulty_mapping` table (main.py:142-148). -/
def difficulty_mapping : List (String × String) :=
  [("BASIC", "easy"), ("ADVANCED", "medium"), ("EXTREME", "hard"),
   ("MASTER", "expert"), ("REAL", "expert")]

/-- Python truthiness of an optional string (`None` and `""` are falsy). -/
def truthyOptStr : Option String → Bool
  | none => false
  | some s => s != ""

/-- Python truthiness of an optional float (`None` and `0.0` are falsy). -/
def truthyOptRat : Option Rat → Bool
  | none => false
  | some q => q != 0

/-- Python `a or b` for an optional-string `a` and a string default. -/
def pyOrDefault (v : Option String) (fallback : String) : String :=
  match v with
  | some t => if t = "" then fallback else t
  | none => fallback

/-- The `song_data` dict as first built (main.py:150-156), before the
difficulty loop: title from SET.def, else the formatted folder name. -/
def initSongData (d : SongDir) (set_info : SetDefInfo) : SongData :=
  { song_id := d.name
    title := pyOrDefault set_info.title (pyTitle (pyReplaceChar d.name '_' ' '))
    artist := none
    bpm := none
    charts := [] }

/-- One iteration of the difficulty loop (main.py:159-181): require both
`file` and `label` keys, require the chart file to exist, fill artist/bpm on a
first-found-wins truthiness test, then append the chart entry. -/
def processSlot (d : SongDir) (acc : SongData) (ks : String × Slot) : SongData :=
  match ks.2.file, ks.2.label with
  | some fn, some lab =>
    match lookupFile d fn with
    | some f =>
      let md := parse_dtx_metadata f.content
      let acc1 := if !truthyOptStr acc.artist && truthyOptStr md.artist then
        { acc with artist := md.artist } else acc
      let acc2 := if !truthyOptRat acc1.bpm && truthyOptRat (md.bpm.getD none) then
        { acc1 with bpm := md.bpm.getD none } else acc1
      let lab_up := pyUpper lab
      { acc2 with charts := acc2.charts ++ [{
          difficulty := (difficulty_mapping.lookup lab_up).getD (pyLower lab_up)
          difficulty_label := lab
          level := md.level.getD (some 50)
          filename := fn
          size := f.size }] }
    | none => acc
  | _, _ => acc

/-- Embedding of `parse_song_folder` (main.py:133-183): `none` when the folder
has no `SET.def`, otherwise the difficulty loop folded over the slot dict in
insertion order. -/
def parse_song_folder (d : SongDir) : Option SongData :=
  match d.setDef with
  | none => none
  | some content =>
    let set_info := parse_set_def content
    some (set_info.difficulties.foldl (processSlot d) (initSongData d set_info))

/-- The chart entry a single slot contributes, if any: the `charts`-building
slice of `processSlot`, used to state which slots contribute. -/
def chartOfSlot (d : SongDir) (ks : String × Slot) : Option ChartEntry :=
  match ks.2.file, ks.2.label with
  | some fn, some lab =>
    (lookupFile d fn).map (fun f =>
      { difficulty := (difficulty_mapping.lookup (pyUpper lab)).getD (pyLower (pyUpper lab))
        difficulty_label := lab
        level := (parse_dtx_metadata f.content).level.getD (some 50)
        filename := fn
        size := f.size })
  | _, _ => none

/-- The DTX root directory as the `/dtx/list` handler sees it: subdirectories
(song folders) and the loose `*.dtx` files with their sizes. -/
structure RootDir where
  songDirs : List SongDir
  dtxFiles : List (String × Nat)
deriving DecidableEq

/-- The JSON object returned by `/dtx/list`; `individual_files` is optional
because one return site of the handler omits that key. -/
structure ListResponse where
  songs : List SongData
  individual_files : Option (List (String × Nat))
deriving DecidableEq

/-- Embedding of the `/dtx/list` handler `list_dtx_files` (main.py:189-217),
with the root directory passed as `none` when `DTX_FILES_DIR` does not exist.
The early return for a missing root is `{"songs": []}` with no
`individual_files` key. -/
def list_dtx_files : Option RootDir → ListResponse
  | none => { songs := [], individual_files := none }
  | some root =>
    { songs := root.songDirs.filterMap (fun d =>
        if d.setDef.isSome then parse_song_folder d else none)
      individual_files := some root.dtxFiles }

/-- Specification of a chart entry's level used for C2: the looked-up chart
file must exist and the level is the metadata's level entry, defaulting to 50
only when that entry is absent. -/
def levelSpec (d : SongDir) (e : ChartEntry) : Option (Option Int) :=
  (lookupFile d e.filename).map
    (fun f => (parse_dtx_metadata f.content).level.getD (some 50))

/-- C2 counterexample input: the single chart's `#DLEVEL: xx` fails integer
conversion, so the metadata stores an explicit null level. -/
def c2Dir : SongDir :=
  { name := "my_song"
    setDef := some "#L1LABEL BASIC\n#L1FILE b.dtx"
    files := [("b.dtx", { content := "#DLEVEL: xx", size := 7 })] }

/-- C2 witness chart entry: the entry produced from `c2Dir`. -/
def c2Chart : ChartEntry :=
  { difficulty := "easy", difficulty_label := "BASIC",
    level := none, filename := "b.dtx", size := 7 }

/-- C2 witness record: the song produced from `c2Dir`. -/
def c2Song : SongData :=
  { song_id := "my_song", title := "My Song", artist := none, bpm := none,
    charts := [c2Chart] }

/-- C5 witness input: slot 1 is complete and its file exists; slot 2 is
complete but `missing.dtx` is not in the folder. -/
def c5Dir : SongDir :=
  { name := "s5"
    setDef := some "#L1LABEL BASIC\n#L1FILE a.dtx\n#L2LABEL EXTREME\n#L2FILE missing.dtx"
    files := [("a.dtx", { content := "#DLEVEL: 30", size := 3 })] }

/-- C5 witness record: the song produced from `c5Dir`. -/
def c5Song : SongData :=
  { song_id := "s5", title := "S5", artist := none, bpm := none
    charts := [{ difficulty := "easy", difficulty_label := "BASIC",
                 level := some 30, filename := "a.dtx", size := 3 }] }

/-- C9 counterexample input: a `SET.def` whose TITLE directive extracts the
empty string, in a folder named `my_song`. -/
def c9Dir : SongDir := { name := "my_song", setDef := some "#TITLE", files := [] }

/-- C9 witness record: the song produced from `c9Dir`. -/
def c9Song : SongData :=
  { song_id := "my_song", title := "My Song", artist := none, bpm := none, charts := [] }

/-- C10 witness input: a `#TITLE:` directive extracting the empty string. -/
def c10Dir : SongDir := { name := "ab_c", setDef := some "#TITLE:", files := [] }

/-- C10 witness record: the song produced from `c10Dir`. -/
def c10Song : SongData :=
  { song_id := "ab_c", title := "Ab C", artist := none, bpm := none, charts := [] }

theorem dtxLines_append (ls : List String) (l : String) :
    dtxLines (ls ++ [l]) = dtxStep (dtxLines ls) l := by
  simp [dtxLines, List.foldl_append]

theorem dtxStep_bpm_eq (md : ChartMetadata) (l : String)
    (h : parse_dtx_line (pyStrip l) "BPM" = none) : (dtxStep md l).bpm = md.bpm := by
  simp only [dtxStep]
  cases h1 : parse_dtx_line (pyStrip l) "TITLE" <;>
    cases h2 : parse_dtx_line (pyStrip l) "ARTIST" <;>
      cases h3 : parse_dtx_line (pyStrip l) "DLEVEL" <;>
        simp [h1, h2, h3, h]

theorem dtxStep_level_eq (md : ChartMetadata) (l : String)
    (h : parse_dtx_line (pyStrip l) "DLEVEL" = none) : (dtxStep md l).level = md.level := by
  simp only [dtxStep]
  cases h1 : parse_dtx_line (pyStrip l) "TITLE" <;>
    cases h2 : parse_dtx_line (pyStrip l) "ARTIST" <;>
      cases h3 : parse_dtx_line (pyStrip l) "BPM" <;>
        simp [h1, h2, h3, h]

theorem foldl_dtxStep_bpm (ls : List String) :
    ∀ md : ChartMetadata, (∀ l ∈ ls, parse_dtx_line (pyStrip l) "BPM" = none) →
      (ls.foldl dtxStep md).bpm = md.bpm := by
  induction ls with
  | nil => intro md _; rfl
  | cons x xs ih =>
    intro md h
    rw [List.foldl_cons, ih (dtxStep md x) (fun l hl => h l (List.mem_cons_of_mem x hl))]
    exact dtxStep_bpm_eq md x (h x (List.mem_cons_self x xs))

theorem foldl_dtxStep_level (ls : List String) :
    ∀ md : ChartMetadata, (∀ l ∈ ls, parse_dtx_line (pyStrip l) "DLEVEL" = none) →
      (ls.foldl dtxStep md).level = md.level := by
  induction ls with
  | nil => intro md _; rfl
  | cons x xs ih =>
    intro md h
    rw [List.foldl_cons, ih (dtxStep md x) (fun l hl => h l (List.mem_cons_of_mem x hl))]
    exact dtxStep_level_eq md x (h x (List.mem_cons_self x xs))

/-- C7 (confirmed): for all three separator styles, extracting key `BPM`
yields the string "120". -/
theorem c7_separator_styles :
    parse_dtx_line "#BPM: 120" "BPM" = some "120" ∧
    parse_dtx_line "#BPM 120" "BPM" = some "120" ∧
    parse_dtx_line "#BPM120" "BPM" = some "120" := by
  decide

/-- C8 (confirmed): the line parser returns absent exactly when the stripped
line does not start with `#` + key, and there is no boundary check after the
key: `#BPMODE` matches key `BPM`, yielding value "ODE". -/
theorem c8_prefix_match :
    (∀ line key : String,
        parse_dtx_line line key = none ↔ ¬ pyStartsWith (pyStrip line) ("#" ++ key) = true)
    ∧ parse_dtx_line "#BPMODE" "BPM" = some "ODE" := by
  constructor
  · intro line key
    simp only [parse_dtx_line]
    by_cases h : pyStartsWith (pyStrip line) ("#" ++ key) = true
    · simp only [h, if_true]
      constructor
      · intro hc
        split at hc <;> simp_all
      · intro hc
        exact absurd trivial hc
    · simp [h]
  · decide

/-- C1 counterexample: with the FILE directive first and the LABEL directive
second, slot "1" ends up with the file absent — the LABEL branch replaces the
whole slot entry instead of merging. -/
theorem c1_counterexample :
    ( parse_set_def "#L1FILE bas.dtx\n#L1LABEL BASIC").difficulties
        = [("1", { label := some "BASIC", file := none })]
    ∧ (( parse_set_def "#L1FILE bas.dtx\n#L1LABEL BASIC").difficulties.lookup "1").map Slot.file
        = some none := by
  decide

/-- C1 (corrected): the LABEL-then-FILE order yields slot "1" with both label
and file, but the FILE-then-LABEL order loses the file, because the LABEL
branch overwrites the slot entry. -/
theorem c1_slot_merge_order :
    ( parse_set_def "#L1LABEL BASIC\n#L1FILE bas.dtx").difficulties
        = [("1", { label := some "BASIC", file := some "bas.dtx" })]
    ∧ ( parse_set_def "#L1FILE bas.dtx\n#L1LABEL BASIC").difficulties
        = [("1", { label := some "BASIC", file := none })] := by
  decide

/-- C4 counterexample: when the root directory does not exist the handler
returns a response whose `individual_files` key is absent. -/
theorem c4_counterexample :
    list_dtx_files none = { songs := [], individual_files := none }
    ∧ (list_dtx_files none).individual_files = none :=
  ⟨rfl, rfl⟩

/-- C4 (corrected): when the root directory exists, the response carries both
the `songs` list and the `individual_files` list; the missing-root early
return instead yields only `{"songs": []}`. -/
theorem c4_list_response_shape :
    ∀ root : RootDir,
      (list_dtx_files (some root)).individual_files = some root.dtxFiles
      ∧ (list_dtx_files (some root)).songs
          = root.songDirs.filterMap (fun d =>
              if d.setDef.isSome then parse_song_folder d else none) :=
  fun _ => ⟨rfl, rfl⟩

/-- C3 (confirmed): a BPM/DLEVEL directive whose value fails numeric
conversion sets the field to an explicit null (`some none`), while a line list
with no matching directive leaves the field absent (`none`), so the two states
are distinguishable.  The last-line formulation matches the loop's
last-occurrence-wins behavior. -/
theorem c3_numeric_null_vs_absent :
    (∀ (ls : List String) (line v : String),
        parse_dtx_line (pyStrip line) "TITLE" = none →
        parse_dtx_line (pyStrip line) "ARTIST" = none →
        parse_dtx_line (pyStrip line) "BPM" = some v →
        pyFloat? v = none →
        (dtxLines (ls ++ [line])).bpm = some none)
    ∧ (∀ ls : List String,
        (∀ l ∈ ls, parse_dtx_line (pyStrip l) "BPM" = none) →
        (dtxLines ls).bpm = none)
    ∧ (∀ (ls : List String) (line v : String),
        parse_dtx_line (pyStrip line) "TITLE" = none →
        parse_dtx_line (pyStrip line) "ARTIST" = none →
        parse_dtx_line (pyStrip line) "BPM" = none →
        parse_dtx_line (pyStrip line) "DLEVEL" = some v →
        pyInt? v = none →
        (dtxLines (ls ++ [line])).level = some none)
    ∧ (∀ ls : List String,
        (∀ l ∈ ls, parse_dtx_line (pyStrip l) "DLEVEL" = none) →
        (dtxLines ls).level = none) := by
  refine ⟨?_, ?_, ?_, ?_⟩
  · intro ls line v h1 h2 h3 h4
    rw [dtxLines_append]
    simp [dtxStep, h1, h2, h3, h4]
  · intro ls h
    exact foldl_dtxStep_bpm ls {} h
  · intro ls line v h1 h2 h3 h4 h5
    rw [dtxLines_append]
    simp [dtxStep, h1, h2, h3, h4, h5]
  · intro ls h
    exact foldl_dtxStep_level ls {} h

/-- C3 witness: `#BPM: abc` after a title line yields `bpm = some none`, a
file without a BPM line leaves `bpm = none`; same for DLEVEL/level. -/
theorem c3_numeric_null_vs_absent_witness :
    (dtxLines ["#TITLE: Foo", "#BPM: abc"]).bpm = some none
    ∧ (dtxLines ["#TITLE: Foo"]).bpm = none
    ∧ (dtxLines ["#DLEVEL: zz"]).level = some none
    ∧ (dtxLines ["#BPM: 12"]).level = none :=
  ⟨c3_numeric_null_vs_absent.1 ["#TITLE: Foo"] "#BPM: abc" "abc"
      (by decide) (by decide) (by decide) (by decide),
   c3_numeric_null_vs_absent.2.1 ["#TITLE: Foo"] (by decide),
   c3_numeric_null_vs_absent.2.2.1 [] "#DLEVEL: zz" "zz"
      (by decide) (by decide) (by decide) (by decide) (by decide),
   c3_numeric_null_vs_absent.2.2.2 ["#BPM: 12"] (by decide)⟩

/-- C6 (confirmed): within the metadata loop the last matching line wins for
each field — a field set by an earlier line is overwritten by a later line
that reaches and matches the same key, since the loop has no cross-line
short-circuit. -/
theorem c6_last_match_wins :
    (∀ (ls : List String) (line v : String),
        parse_dtx_line (pyStrip line) "TITLE" = some v →
        (dtxLines (ls ++ [line])).title = some v)
    ∧ (∀ (ls : List String) (line v : String),
        parse_dtx_line (pyStrip line) "TITLE" = none →
        parse_dtx_line (pyStrip line) "ARTIST" = some v →
        (dtxLines (ls ++ [line])).artist = some v)
    ∧ (∀ (ls : List String) (line v : String),
        parse_dtx_line (pyStrip line) "TITLE" = none →
        parse_dtx_line (pyStrip line) "ARTIST" = none →
        parse_dtx_line (pyStrip line) "BPM" = some v →
        (dtxLines (ls ++ [line])).bpm = some (pyFloat? v))
    ∧ (∀ (ls : List String) (line v : String),
        parse_dtx_line (pyStrip line) "TITLE" = none →
        parse_dtx_line (pyStrip line) "ARTIST" = none →
        parse_dtx_line (pyStrip line) "BPM" = none →
        parse_dtx_line (pyStrip line) "DLEVEL" = some v →
        (dtxLines (ls ++ [line])).level = some (pyInt? v)) := by
  refine ⟨?_, ?_, ?_, ?_⟩
  · intro ls line v h1
    rw [dtxLines_append]
    simp [dtxStep, h1]
  · intro ls line v h1 h2
    rw [dtxLines_append]
    simp [dtxStep, h1, h2]
  · intro ls line v h1 h2 h3
    rw [dtxLines_append]
    simp [dtxStep, h1, h2, h3]
  · intro ls line v h1 h2 h3 h4
    rw [dtxLines_append]
    simp [dtxStep, h1, h2, h3, h4]

/-- C6 witness: a second `#TITLE` line overwrites the first (and likewise for
the other fields). -/
theorem c6_last_match_wins_witness :
    (dtxLines ["#TITLE: A", "#TITLE: B"]).title = some "B"
    ∧ (dtxLines ["#ARTIST: X", "#ARTIST: Y"]).artist = some "Y"
    ∧ (dtxLines ["#BPM: 10", "#BPM: 20"]).bpm = some (pyFloat? "20")
    ∧ (dtxLines ["#DLEVEL: 4", "#DLEVEL: 9"]).level = some (pyInt? "9") :=
  ⟨c6_last_match_wins.1 ["#TITLE: A"] "#TITLE: B" "B" (by decide),
   c6_last_match_wins.2.1 ["#ARTIST: X"] "#ARTIST: Y" "Y" (by decide) (by decide),
   c6_last_match_wins.2.2.1 ["#BPM: 10"] "#BPM: 20" "20"
      (by decide) (by decide) (by decide),
   c6_last_match_wins.2.2.2 ["#DLEVEL: 4"] "#DLEVEL: 9" "9"
      (by decide) (by decide) (by decide) (by decide)⟩

theorem processSlot_charts (d : SongDir) (acc : SongData) (ks : String × Slot) :
    (processSlot d acc ks).charts = acc.charts ++ (chartOfSlot d ks).toList := by
  rcases ks with ⟨k, s⟩
  cases hf : s.file with
  | none => simp [processSlot, chartOfSlot, hf]
  | some fn =>
    cases hl : s.label with
    | none => simp [processSlot, chartOfSlot, hf, hl]
    | some lab =>
      cases hk : lookupFile d fn with
      | none => simp [processSlot, chartOfSlot, hf, hl, hk]
      | some f =>
        simp only [processSlot, chartOfSlot, hf, hl, hk]
        split_ifs <;> simp

theorem processSlot_title (d : SongDir) (acc : SongData) (ks : String × Slot) :
    (processSlot d acc ks).title = acc.title := by
  rcases ks with ⟨k, s⟩
  cases hf : s.file with
  | none => simp [processSlot, hf]
  | some fn =>
    cases hl : s.label with
    | none => simp [processSlot, hf, hl]
    | some lab =>
      cases hk : lookupFile d fn with
      | none => simp [processSlot, hf, hl, hk]
      | some f =>
        simp only [processSlot, hf, hl, hk]
        split_ifs <;> simp

theorem foldl_processSlot_charts (d : SongDir) (slots : List (String × Slot)) :
    ∀ acc : SongData,
      (slots.foldl (processSlot d) acc).charts
        = acc.charts ++ slots.filterMap (chartOfSlot d) := by
  induction slots with
  | nil => intro acc; simp
  | cons x xs ih =>
    intro acc
    rw [List.foldl_cons, ih (processSlot d acc x), processSlot_charts]
    cases h : chartOfSlot d x <;> simp [h, List.filterMap_cons]

theorem foldl_processSlot_title (d : SongDir) (slots : List (String × Slot)) :
    ∀ acc : SongData, (slots.foldl (processSlot d) acc).title = acc.title := by
  induction slots with
  | nil => intro acc; rfl
  | cons x xs ih =>
    intro acc
    rw [List.foldl_cons, ih (processSlot d acc x), processSlot_title]

theorem parse_song_folder_eq (d : SongDir) (content : String) (r : SongData)
    (h1 : d.setDef = some content) (h2 : parse_song_folder d = some r) :
    (parse_set_def content).difficulties.foldl (processSlot d)
      (initSongData d (parse_set_def content)) = r := by
  simpa [parse_song_folder, h1] using h2

/-- C5 (confirmed): the chart list is exactly the per-slot contributions, and
a slot contributes a chart entry if and only if it has both a `file` and a
`label` and the referenced chart file exists in the folder; a slot whose file
is missing contributes nothing (and the model is total, so nothing is
raised). -/
theorem c5_slot_contribution :
    ∀ (d : SongDir) (content : String) (r : SongData) (ks : String × Slot),
      d.setDef = some content →
      parse_song_folder d = some r →
      r.charts = (parse_set_def content).difficulties.filterMap (chartOfSlot d)
      ∧ ((chartOfSlot d ks).isSome = true ↔
          ks.2.file.isSome = true ∧ ks.2.label.isSome = true
          ∧ (ks.2.file.bind (lookupFile d)).isSome = true) := by
  intro d content r ks h1 h2
  constructor
  · rw [← parse_song_folder_eq d content r h1 h2, foldl_processSlot_charts]
    simp [initSongData]
  · rcases ks with ⟨k, s⟩
    cases hf : s.file with
    | none => simp [chartOfSlot, hf]
    | some fn =>
      cases hl : s.label with
      | none => simp [chartOfSlot, hf, hl]
      | some lab =>
        cases hk : lookupFile d fn with
        | none => simp [chartOfSlot, hf, hl, hk]
        | some f => simp [chartOfSlot, hf, hl, hk]

/-- C5 witness: the theorem applied to `c5Dir`, at the slot whose file is
missing. -/
theorem c5_slot_contribution_witness :
    c5Song.charts
      = ( parse_set_def "#L1LABEL BASIC\n#L1FILE a.dtx\n#L2LABEL EXTREME\n#L2FILE missing.dtx").difficulties.filterMap
          (chartOfSlot c5Dir)
    ∧ ((chartOfSlot c5Dir ("2", { label := some "EXTREME", file := some "missing.dtx" })).isSome = true ↔
        (Option.some "missing.dtx").isSome = true
        ∧ (Option.some "EXTREME").isSome = true
        ∧ ((Option.some "missing.dtx").bind (lookupFile c5Dir)).isSome = true) :=
  c5_slot_contribution c5Dir
    "#L1LABEL BASIC\n#L1FILE a.dtx\n#L2LABEL EXTREME\n#L2FILE missing.dtx"
    c5Song ("2", { label := some "EXTREME", file := some "missing.dtx" })
    rfl (by decide)

/-- C2 counterexample: a present-but-null metadata level produces a chart
entry whose level is null, not the integer 50 the claim requires. -/
theorem c2_counterexample :
    (parse_dtx_metadata "#DLEVEL: xx").level = some none
    ∧ (parse_song_folder c2Dir).map (fun r => r.charts.map ChartEntry.level)
        = some [none]
    ∧ ((none : Option Int) ≠ some 50) := by
  decide

/-- C2 (corrected): every appended chart entry's level is the metadata's
level entry with default 50 — i.e. 50 exactly when the `level` key is absent;
a present-but-null level is passed through as null, and a parsed integer as
that integer. -/
theorem c2_chart_level :
    ∀ (d : SongDir) (r : SongData) (e : ChartEntry),
      parse_song_folder d = some r →
      e ∈ r.charts →
      levelSpec d e = some e.level := by
  intro d r e h1 h2
  cases hd : d.setDef with
  | none => simp [parse_song_folder, hd] at h1
  | some content =>
    rw [← parse_song_folder_eq d content r hd h1, foldl_processSlot_charts] at h2
    simp only [initSongData, List.nil_append] at h2
    rw [List.mem_filterMap] at h2
    obtain ⟨ks, _, hks⟩ := h2
    rcases ks with ⟨k, s⟩
    cases hf : s.file with
    | none => simp [chartOfSlot, hf] at hks
    | some fn =>
      cases hl : s.label with
      | none => simp [chartOfSlot, hf, hl] at hks
      | some lab =>
        cases hk : lookupFile d fn with
        | none => simp [chartOfSlot, hf, hl, hk] at hks
        | some f =>
          simp only [chartOfSlot, hf, hl, hk, Option.map_some', Option.some.injEq] at hks
          subst hks
          simp [levelSpec, hk]

/-- C2 witness: the amended level law applied to the concrete folder. -/
theorem c2_chart_level_witness : levelSpec c2Dir c2Chart = some c2Chart.level :=
  c2_chart_level c2Dir c2Song c2Chart (by decide) (by decide)

theorem pyTitleAux_length (l : List Char) : ∀ b : Bool, (pyTitleAux b l).length = l.length := by
  induction l with
  | nil => intro b; rfl
  | cons c cs ih =>
    intro b
    by_cases h : c.isAlpha <;> simp [pyTitleAux, h, ih]

theorem string_mk_eq_empty (l : List Char) (h : l = []) : String.mk l = "" := by
  subst h; rfl

theorem pyOrDefault_ne_empty (v : Option String) (f : String) (hf : f ≠ "") :
    pyOrDefault v f ≠ "" := by
  cases v with
  | none => exact hf
  | some t =>
    simp only [pyOrDefault]
    by_cases ht : t = ""
    · rw [if_pos ht]; exact hf
    · rw [if_neg ht]; exact ht

theorem pyTitle_replace_ne_empty (name : String) (h : name ≠ "") :
    pyTitle (pyReplaceChar name '_' ' ') ≠ "" := by
  intro he
  apply h
  have hlen : (pyTitle (pyReplaceChar name '_' ' ')).data.length = name.data.length := by
    simp [pyTitle, pyReplaceChar, pyTitleAux_length]
  rw [he] at hlen
  simp at hlen
  cases name with
  | mk l =>
    simp at hlen
    exact string_mk_eq_empty l (List.length_eq_zero.mp hlen.symm)

/-- C9 counterexample: the present-but-empty TITLE is not used as the song
title. -/
theorem c9_counterexample :
    ( parse_set_def "#TITLE").title = some ""
    ∧ (parse_song_folder c9Dir).map SongData.title = some "My Song"
    ∧ (("My Song" : String) ≠ "") := by
  decide

/-- C9 (corrected): the song title is the SET.def TITLE value when it is
present AND non-empty; otherwise (absent or empty) it is the folder name with
underscores replaced by spaces and title-cased.  The right-hand side depends
only on the SET.def content and the folder name, so a TITLE inside a chart
file is never used. -/
theorem c9_title_source :
    ∀ (d : SongDir) (content : String) (r : SongData),
      d.setDef = some content →
      parse_song_folder d = some r →
      r.title = (if (parse_set_def content).title.getD "" = ""
                 then pyTitle (pyReplaceChar d.name '_' ' ')
                 else (parse_set_def content).title.getD "") := by
  intro d content r h1 h2
  rw [← parse_song_folder_eq d content r h1 h2, foldl_processSlot_title]
  simp only [initSongData]
  cases h : (parse_set_def content).title with
  | none => simp [pyOrDefault, h]
  | some t => by_cases ht : t = "" <;> simp [pyOrDefault, h, ht]

/-- C9 witness: the amended title law applied to the concrete folder. -/
theorem c9_title_source_witness :
    c9Song.title = (if ( parse_set_def "#TITLE").title.getD "" = ""
                    then pyTitle (pyReplaceChar c9Dir.name '_' ' ')
                    else ( parse_set_def "#TITLE").title.getD "") :=
  c9_title_source c9Dir "#TITLE" c9Song rfl (by decide)

/-- C10 (confirmed): a SET.def TITLE that extracts to the empty string is
treated as absent — the title falls back to the formatted folder name — and
consequently a song record built from a folder with a non-empty name never
has an empty title. -/
theorem c10_empty_title_fallback :
    (∀ (d : SongDir) (content : String),
        d.setDef = some content →
        (parse_set_def content).title = some "" →
        (parse_song_folder d).map SongData.title
          = some (pyTitle (pyReplaceChar d.name '_' ' ')))
    ∧ (∀ (d : SongDir) (r : SongData),
        parse_song_folder d = some r → d.name ≠ "" → r.title ≠ "") := by
  constructor
  · intro d content h1 ht
    simp only [parse_song_folder, h1, Option.map_some']
    rw [foldl_processSlot_title]
    simp [initSongData, pyOrDefault, ht]
  · intro d r h1 hn
    cases hd : d.setDef with
    | none => simp [parse_song_folder, hd] at h1
    | some content =>
      rw [← parse_song_folder_eq d content r hd h1, foldl_processSlot_title]
      simp only [initSongData]
      exact pyOrDefault_ne_empty _ _ (pyTitle_replace_ne_empty d.name hn)

/-- C10 witness: both parts applied to the concrete folder. -/
theorem c10_empty_title_fallback_witness :
    (parse_song_folder c10Dir).map SongData.title
        = some (pyTitle (pyReplaceChar c10Dir.name '_' ' '))
    ∧ c10Song.title ≠ "" :=
  ⟨c10_empty_title_fallback.1 c10Dir "#TITLE:" rfl (by decide),
   c10_empty_title_fallback.2 c10Dir c10Song (by decide) (by decide)⟩

example : parse_dtx_line "#BPM120" "BPM" = some "120" := by decide
example : parse_dtx_line "#BPMODE" "BPM" = some "ODE" := by decide
example : parse_dtx_line "TITLE x" "TITLE" = none := by decide
example :
    ( parse_set_def "#L1LABEL BASIC\n#L1FILE bas.dtx").difficulties
      = [("1", { label := some "BASIC", file := some "bas.dtx" })] := by decide
example :
    ( parse_set_def "#L1FILE bas.dtx\n#L1LABEL BASIC").difficulties
      = [("1", { label := some "BASIC", file := none })] := by decide
example : ( parse_set_def "#TITLE").title = some "" := by decide
example : pyInt? "30" = some 30 := by decide
example : pyInt? "xx" = none := by decide
example : pyFloat? "abc" = none := by decide
example : pyTitle "my song" = "My Song" := by decide
example : pySplit "a\nb\n" "\n" = ["a", "b", ""] := by decide
example : pySplit "aaa" "aa" = ["", "a"] := by decide
example :
    parse_dtx_metadata "#TITLE: Foo\n#BPM: abc\n#DLEVEL: 30"
      = { title := some "Foo", artist := none, bpm := some none, level := some (some 30) } := by
  decide
example :
    parse_song_folder
      { name := "my_song", setDef := some "#L1LABEL BASIC\n#L1FILE b.dtx",
        files := [("b.dtx", { content := "#DLEVEL: xx", size := 7 })] }
      = some { song_id := "my_song", title := "My Song", artist := none, bpm := none,
               charts := [{ difficulty := "easy", difficulty_label := "BASIC",
                            level := none, filename := "b.dtx", size := 7 }] } := by
  decide
